import Mathlib

/-!
Verification of the email-list backend (Express + PostgreSQL handlers).

The database tables `users`, `projects` and `project_emails` are modelled as
lists of rows inside a `Store`; each HTTP handler becomes a pure function
`Store → ... → Resp × Store` translated statement-by-statement from the
request handlers in the source. External collaborators are injected:
bcrypt hashing/comparison are function parameters, the fresh verification
token and fresh UUID are parameters, and transient database-query failure
inside an explicit transaction is an oracle `fail : Nat → Bool` (one index
per statement in program order; a `true` means that query throws, the
handler's catch block issues ROLLBACK and answers 500).  Timestamps
(`created_at`, `added_at`) are produced by the database (`NOW()`) and play
no role in any handler's logic, so they are omitted from the row types.
-/

/-- A row of the `users` table.  `token` is the pending verification token
column, nullable in the schema (the early iteration inserts no token at
all), hence `Option`. -/
structure User where
  id : String
  username : String
  email : String
  password_hash : String
  is_verified : Bool
  token : Option String
deriving Repr, DecidableEq

/-- A row of the `projects` table. -/
structure Project where
  id : Nat
  user_id : String
  project_name : String
  description : String
deriving Repr, DecidableEq

/-- A row of the `project_emails` table. -/
structure ProjectEmail where
  id : Nat
  project_id : Nat
  email : String
deriving Repr, DecidableEq

/-- The database state: the three tables plus the sequence feeding
`project_emails.id` on insert. -/
structure Store where
  users : List User
  projects : List Project
  project_emails : List ProjectEmail
  next_email_id : Nat
deriving Repr, DecidableEq

/-- The payload of a signed session JWT: `jwt.sign({ userId: user.id }, ...)`.
Signature and expiry are handled by the jsonwebtoken collaborator and are
not inspected by any handler, so only the carried user id is modelled. -/
structure SessionToken where
  userId : String
deriving Repr, DecidableEq

/-- The JSON body a handler serialises with `res.json(...)`. -/
inductive Body where
  /-- `{ message: m }` -/
  | message (m : String)
  /-- `{ token, expires, status }` from a successful signin (the expiry
  timestamp comes from the clock collaborator and is not modelled) -/
  | signinSuccess (token : SessionToken) (status : String)
  /-- signup success: the row returned by `RETURNING id, username, email,
  created_at` -/
  | userSummary (id : String) (username : String) (email : String)
  /-- collect-email success: `RETURNING id, project_id, email, added_at` -/
  | emailRecord (id : Nat) (project_id : Nat) (email : String)
  /-- list of `project_emails` rows (`SELECT *`) -/
  | emailRows (rows : List ProjectEmail)
  /-- list of `users` rows (`SELECT *`), serialised column by column as
  (column name, value) pairs -/
  | userRows (rows : List (List (String × String)))
deriving Repr, DecidableEq

/-- An HTTP response: status code and JSON body. -/
structure Resp where
  status : Nat
  body : Body
deriving Repr, DecidableEq

/-- SQL predicate `token = $1` on a `users` row: a NULL column never
matches. -/
def tokenMatches (u : User) (t : String) : Bool :=
  match u.token with
  | some t0 => t0 == t
  | none => false

/-- Effect of `UPDATE users SET is_verified = TRUE WHERE token = $1` on a
single row. -/
def markVerified (t : String) (u : User) : User :=
  if tokenMatches u t then { u with is_verified := true } else u

/-- Handler `GET /verify-email` (final iteration): runs
`UPDATE users SET is_verified = TRUE WHERE token = $1 RETURNING email`;
a zero row count answers 400 "Invalid token", otherwise 200.  A missing or
empty `token` query parameter is the falsy guard at the top. -/
def verifyEmail (s : Store) (t : String) : Resp × Store :=
  if t = "" then (⟨400, Body.message "Invalid token"⟩, s)
  else
    let matched := s.users.filter (fun u => tokenMatches u t)
    let s' : Store := { s with users := s.users.map (markVerified t) }
    if matched.length = 0 then (⟨400, Body.message "Invalid token"⟩, s')
    else (⟨200, Body.message "Email verified successfully"⟩, s')

/-- The row lookup in `POST /users/signin`: an input containing `@` is
looked up as an email, otherwise as a username (the
`inputName.includes("@")` heuristic). -/
def signinLookup (s : Store) (inputName : String) : List User :=
  if inputName.toList.contains '@' then
    s.users.filter (fun u => u.email == inputName)
  else s.users.filter (fun u => u.username == inputName)

/-- Handler `POST /users/signin`.  `bcryptCompare pw hash` injects
`bcrypt.compare(password, user.password_hash)`. -/
def signin (s : Store) (inputName password : String)
    (bcryptCompare : String → String → Bool) : Resp × Store :=
  if inputName = "" ∨ password = "" then
    (⟨400, Body.message "Username/email and password are required"⟩, s)
  else
    match signinLookup s inputName with
    | [] => (⟨401, Body.message "Invalid username/email or password"⟩, s)
    | user :: _ =>
      if bcryptCompare password user.password_hash = false then
        (⟨401, Body.message "Invalid username/email or password"⟩, s)
      else if user.is_verified = false then
        (⟨400, Body.message "Email not verified"⟩, s)
      else
        (⟨200, Body.signinSuccess ⟨user.id⟩ "Success"⟩, s)

/-- Handler `POST /users/signup` (final iteration).  `bcryptHash` injects
`bcrypt.hash(password, 13)`, `freshToken` the 32 random bytes hex token,
`freshId` the generated UUID.  The verification email dispatch is
fire-and-forget and does not touch the store. -/
def signup (s : Store) (username email password : String)
    (bcryptHash : String → String) (freshToken freshId : String) :
    Resp × Store :=
  if username = "" ∨ email = "" ∨ password = "" then
    (⟨400, Body.message "All fields are required"⟩, s)
  else if (s.users.filter (fun u => u.email == email)).length > 0 then
    (⟨400, Body.message "This email is already associated with an account"⟩, s)
  else if (s.users.filter (fun u => u.username == username)).length > 0 then
    (⟨400, Body.message "This username is already taken"⟩, s)
  else
    let newUser : User :=
      { id := freshId, username := username, email := email,
        password_hash := bcryptHash password, is_verified := false,
        token := some freshToken }
    (⟨201, Body.userSummary freshId username email⟩,
     { s with users := s.users ++ [newUser] })

/-- `DELETE FROM project_emails WHERE project_id IN
(SELECT id FROM projects WHERE user_id = $1)`. -/
def deleteEmailsOfUser (s : Store) (userId : String) : Store :=
  let ownedIds := (s.projects.filter (fun p => p.user_id == userId)).map
    (fun p => p.id)
  { s with project_emails :=
      s.project_emails.filter (fun e => !(ownedIds.contains e.project_id)) }

/-- `DELETE FROM projects WHERE user_id = $1`. -/
def deleteProjectsOfUser (s : Store) (userId : String) : Store :=
  { s with projects := s.projects.filter (fun p => !(p.user_id == userId)) }

/-- `DELETE FROM users WHERE id = $1`. -/
def deleteUserRow (s : Store) (userId : String) : Store :=
  { s with users := s.users.filter (fun u => !(u.id == userId)) }

/-- Handler `DELETE /users/delete`: BEGIN; delete project emails of the
user's projects; delete the user's projects; delete the user; COMMIT.
`fail i = true` means the i-th query (0,1,2 the deletes, 3 the COMMIT)
throws; the catch block rolls the transaction back to the incoming store
and answers 500. -/
def deleteUser (s : Store) (userId : String) (fail : Nat → Bool) :
    Resp × Store :=
  if fail 0 then (⟨500, Body.message "Internal server error"⟩, s)
  else
    let s1 := deleteEmailsOfUser s userId
    if fail 1 then (⟨500, Body.message "Internal server error"⟩, s)
    else
      let s2 := deleteProjectsOfUser s1 userId
      if fail 2 then (⟨500, Body.message "Internal server error"⟩, s)
      else
        let s3 := deleteUserRow s2 userId
        if fail 3 then (⟨500, Body.message "Internal server error"⟩, s)
        else
          (⟨200,
            Body.message
              "User and associated projects and emails deleted successfully"⟩,
           s3)

/-- Handler `DELETE /projects/delete/:id`: BEGIN; delete the project's
emails; delete the project guarded by `id = $1 AND user_id = $2`; a zero
row count on that second delete rolls back and answers 404; otherwise
COMMIT.  `fail` indices: 0 = email delete, 1 = project delete,
2 = COMMIT. -/
def deleteProject (s : Store) (projectId : Nat) (userId : String)
    (fail : Nat → Bool) : Resp × Store :=
  if fail 0 then (⟨500, Body.message "Internal server error"⟩, s)
  else
    let emails1 := s.project_emails.filter (fun e => !(e.project_id == projectId))
    let s1 : Store := { s with project_emails := emails1 }
    if fail 1 then (⟨500, Body.message "Internal server error"⟩, s)
    else
      let deleted := s1.projects.filter (fun p => p.id == projectId && p.user_id == userId)
      let rowCount := deleted.length
      let projects2 := s1.projects.filter (fun p => !(p.id == projectId && p.user_id == userId))
      let s2 : Store := { s1 with projects := projects2 }
      if rowCount = 0 then
        (⟨404, Body.message "Project not found or not owned by the user"⟩, s)
      else if fail 2 then (⟨500, Body.message "Internal server error"⟩, s)
      else
        (⟨200,
          Body.message "Project and associated emails deleted successfully"⟩,
         s2)

/-- The number of `project_emails` rows holding a given (project, email)
pair. -/
def countPair (s : Store) (projectId : Nat) (email : String) : Nat :=
  (s.project_emails.filter
    (fun pe => pe.project_id == projectId && pe.email == email)).length

/-- Handler `POST /send-email/:projectId` (public email-collection
endpoint): checks the project exists, checks the (project, email) pair is
not already present, then inserts; the database sequence supplies the new
row id. -/
def collectEmail (s : Store) (projectId : Nat) (email : String) :
    Resp × Store :=
  if email = "" then (⟨400, Body.message "Email is required"⟩, s)
  else if (s.projects.filter (fun p => p.id == projectId)).length = 0 then
    (⟨404, Body.message "Project not found"⟩, s)
  else if 0 < countPair s projectId email then
    (⟨400, Body.message "Email already associated with this project"⟩, s)
  else
    let row : ProjectEmail :=
      { id := s.next_email_id, project_id := projectId, email := email }
    (⟨201, Body.emailRecord s.next_email_id projectId email⟩,
     { s with project_emails := s.project_emails ++ [row],
              next_email_id := s.next_email_id + 1 })

/-- Serialisation of a full `users` row as produced by
`res.json(getUsersResult.rows)` after `SELECT * FROM users`: every column
of the row appears in the payload. -/
def userRowJson (u : User) : List (String × String) :=
  [("id", u.id), ("username", u.username), ("email", u.email),
   ("password_hash", u.password_hash),
   ("is_verified", if u.is_verified then "true" else "false"),
   ("token", match u.token with | some t0 => t0 | none => "null")]

/-- Handler `GET /get-users` (early iteration, kept in the repository):
`SELECT * FROM users` and answer every row, all columns included. -/
def getUsers (s : Store) : Resp × Store :=
  (⟨200, Body.userRows (s.users.map userRowJson)⟩, s)

/-! ### Helper lemmas -/

theorem tokenMatches_iff (u : User) (t : String) :
    tokenMatches u t = true ↔ u.token = some t := by
  cases h : u.token <;> simp [tokenMatches, h]

theorem markVerified_token (t : String) (u : User) :
    (markVerified t u).token = u.token := by
  unfold markVerified; split <;> rfl

theorem tokenMatches_markVerified (t t' : String) (u : User) :
    tokenMatches (markVerified t u) t' = tokenMatches u t' := by
  unfold tokenMatches
  rw [markVerified_token]

theorem markVerified_id_of_not (t : String) (u : User)
    (h : tokenMatches u t = false) : markVerified t u = u := by
  unfold markVerified
  simp [h]

theorem markVerified_verified_of (t : String) (u : User)
    (h : tokenMatches u t = true) : (markVerified t u).is_verified = true := by
  unfold markVerified
  simp [h]

theorem markVerified_idem (t : String) (u : User) :
    markVerified t (markVerified t u) = markVerified t u := by
  by_cases h : tokenMatches u t = true
  · unfold markVerified
    simp [tokenMatches_markVerified, h, markVerified]
  · have h' : tokenMatches u t = false := by
      revert h; cases tokenMatches u t <;> simp
    rw [markVerified_id_of_not t u h']
    exact markVerified_id_of_not t u h'

theorem map_fix_eq_self {α : Type} (f : α → α) :
    ∀ l : List α, (∀ a ∈ l, f a = a) → l.map f = l := by
  intro l h
  induction l with
  | nil => rfl
  | cons a l ih =>
    simp only [List.map_cons]
    rw [h a (by simp), ih (fun b hb => h b (by simp [hb]))]

theorem verifyEmail_of_ne (s : Store) (t : String) (ht : t ≠ "") :
    verifyEmail s t =
      if (s.users.filter (fun u => tokenMatches u t)).length = 0 then
        (⟨400, Body.message "Invalid token"⟩,
         { s with users := s.users.map (markVerified t) })
      else
        (⟨200, Body.message "Email verified successfully"⟩,
         { s with users := s.users.map (markVerified t) }) := by
  unfold verifyEmail
  rw [if_neg ht]

/-- Concrete store for settling C1: the single user has just signed up and
still holds the verification token "t", unverified. -/
def c1Store : Store :=
  { users := [{ id := "u1", username := "alice", email := "a@x.com",
                password_hash := "h1", is_verified := false,
                token := some "t" }],
    projects := [], project_emails := [], next_email_id := 0 }

/-- C1 counterexample: after the token "t" is consumed once (flipping the
holder to verified), a second consumption of the very same token does NOT
fail with the 400 "Invalid token" response the claim requires — the token
is never cleared, the UPDATE matches the same row again and the handler
answers 200 "Email verified successfully" a second time. -/
theorem C1_token_reuse_counterexample :
    (verifyEmail c1Store "t").1 =
      ⟨200, Body.message "Email verified successfully"⟩ ∧
    (∃ u ∈ (verifyEmail c1Store "t").2.users, u.is_verified = true) ∧
    (verifyEmail (verifyEmail c1Store "t").2 "t").1 =
      ⟨200, Body.message "Email verified successfully"⟩ ∧
    (verifyEmail (verifyEmail c1Store "t").2 "t").1 ≠
      ⟨400, Body.message "Invalid token"⟩ := by
  decide

/-- C1 (amended): consuming a verification token held by no user fails
with the 400 "Invalid token" response and leaves the store unchanged;
consuming a token held by a user answers 200 and sets every holder's
verified flag to true; because the handler never clears the token, a
second consumption of the same token answers 200 again and leaves the
store unchanged (rather than failing with InvalidToken as originally
claimed). -/
theorem C1_verify_email_consumption (s : Store) (t : String) (ht : t ≠ "") :
    ((∀ u ∈ s.users, tokenMatches u t = false) →
      verifyEmail s t = (⟨400, Body.message "Invalid token"⟩, s)) ∧
    (∀ u ∈ s.users, tokenMatches u t = true →
      (verifyEmail s t).1 = ⟨200, Body.message "Email verified successfully"⟩ ∧
      (∀ v ∈ (verifyEmail s t).2.users, tokenMatches v t = true →
        v.is_verified = true) ∧
      (verifyEmail (verifyEmail s t).2 t).1 =
        ⟨200, Body.message "Email verified successfully"⟩ ∧
      (verifyEmail (verifyEmail s t).2 t).2 = (verifyEmail s t).2) := by
  constructor
  · intro hno
    have hfil : s.users.filter (fun u => tokenMatches u t) = [] :=
      List.filter_eq_nil_iff.mpr (fun a ha => by simp [hno a ha])
    have hmap : s.users.map (markVerified t) = s.users :=
      map_fix_eq_self _ _ (fun a ha => markVerified_id_of_not t a (hno a ha))
    rw [verifyEmail_of_ne s t ht, hfil, hmap]
    simp
  · intro u hu htm
    have hmem : u ∈ s.users.filter (fun x => tokenMatches x t) :=
      List.mem_filter.mpr ⟨hu, htm⟩
    have hne : ¬ (s.users.filter (fun x => tokenMatches x t)).length = 0 := by
      intro h0
      rw [List.length_eq_zero] at h0
      rw [h0] at hmem
      exact (List.not_mem_nil u) hmem
    have hEq : verifyEmail s t =
        (⟨200, Body.message "Email verified successfully"⟩,
         { s with users := s.users.map (markVerified t) }) := by
      rw [verifyEmail_of_ne s t ht, if_neg hne]
    have hmem2 : markVerified t u ∈
        (s.users.map (markVerified t)).filter (fun x => tokenMatches x t) :=
      List.mem_filter.mpr ⟨List.mem_map_of_mem (markVerified t) hu,
        by rw [tokenMatches_markVerified]; exact htm⟩
    have hne2 : ¬ ((s.users.map (markVerified t)).filter
        (fun x => tokenMatches x t)).length = 0 := by
      intro h0
      rw [List.length_eq_zero] at h0
      rw [h0] at hmem2
      exact (List.not_mem_nil _) hmem2
    have hmm : (s.users.map (markVerified t)).map (markVerified t) =
        s.users.map (markVerified t) := by
      rw [List.map_map]
      exact List.map_congr_left (fun a ha => markVerified_idem t a)
    refine ⟨by rw [hEq], ?_, ?_, ?_⟩
    · rw [hEq]
      intro v hv hvt
      obtain ⟨w, hw, hwe⟩ := List.mem_map.mp hv
      subst hwe
      rw [tokenMatches_markVerified] at hvt
      exact markVerified_verified_of t w hvt
    · rw [hEq]
      rw [verifyEmail_of_ne _ t ht]
      simp only [if_neg hne2]
    · rw [hEq]
      rw [verifyEmail_of_ne _ t ht]
      simp only [if_neg hne2]
      rw [hmm]

theorem deleteUser_ok (s : Store) (userId : String) (fail : Nat → Bool)
    (hf : ∀ i, fail i = false) :
    deleteUser s userId fail =
      (⟨200, Body.message
          "User and associated projects and emails deleted successfully"⟩,
       deleteUserRow (deleteProjectsOfUser (deleteEmailsOfUser s userId)
         userId) userId) := by
  unfold deleteUser
  simp [hf 0, hf 1, hf 2, hf 3]

theorem deleteUser_rollback (s : Store) (userId : String) (fail : Nat → Bool)
    (h : fail 0 = true ∨ fail 1 = true ∨ fail 2 = true ∨ fail 3 = true) :
    deleteUser s userId fail =
      (⟨500, Body.message "Internal server error"⟩, s) := by
  unfold deleteUser
  rcases h with h | h | h | h
  · simp [h]
  · cases h0 : fail 0 <;> simp [h0, h]
  · cases h0 : fail 0 <;> cases h1 : fail 1 <;> simp [h0, h1, h]
  · cases h0 : fail 0 <;> cases h1 : fail 1 <;> cases h2 : fail 2 <;>
      simp [h0, h1, h2, h]

/-- Fixture rows: verified user "A" (password hash "HpwA") owns project 1
holding two collected emails; unverified user "B" (hash "HpwB") owns
project 2 holding one. -/
def userA : User :=
  { id := "A", username := "alice", email := "alice@x.com",
    password_hash := "HpwA", is_verified := true, token := some "tA" }

def userB : User :=
  { id := "B", username := "bob", email := "bob@y.com",
    password_hash := "HpwB", is_verified := false, token := some "tB" }

def fixStore : Store :=
  { users := [userA, userB],
    projects := [{ id := 1, user_id := "A", project_name := "p1",
                   description := "d1" },
                 { id := 2, user_id := "B", project_name := "p2",
                   description := "d2" }],
    project_emails := [{ id := 10, project_id := 1, email := "e1@z.com" },
                       { id := 11, project_id := 1, email := "e2@z.com" },
                       { id := 20, project_id := 2, email := "e3@z.com" }],
    next_email_id := 21 }

/-- A toy stand-in for bcrypt.compare used by concrete witnesses: a
password matches exactly the hash "H" ++ password. -/
def demoCmp (pw hash : String) : Bool := ("H" ++ pw) == hash

/-- C2: inside the delete-user transaction, a failure of any of the three
delete statements (or of the COMMIT) rolls the store back to exactly its
prior state and answers InternalError; when nothing fails the handler
deletes, in order, the emails of the user's projects, the user's projects
and the user row, and commits. -/
theorem C2_delete_user_cascade (s : Store) (userId : String)
    (fail : Nat → Bool) :
    ((fail 0 = true ∨ fail 1 = true ∨ fail 2 = true ∨ fail 3 = true) →
      deleteUser s userId fail =
        (⟨500, Body.message "Internal server error"⟩, s)) ∧
    ((∀ i, fail i = false) →
      deleteUser s userId fail =
        (⟨200, Body.message
            "User and associated projects and emails deleted successfully"⟩,
         deleteUserRow (deleteProjectsOfUser (deleteEmailsOfUser s userId)
           userId) userId)) :=
  ⟨deleteUser_rollback s userId fail, deleteUser_ok s userId fail⟩

/-- C2 witness at the fixture store: an always-failing transaction leaves
the store untouched with a 500, an always-succeeding one commits the
three-step cascade. -/
theorem C2_delete_user_cascade_witness :
    deleteUser fixStore "A" (fun _ => true) =
      (⟨500, Body.message "Internal server error"⟩, fixStore) ∧
    deleteUser fixStore "A" (fun _ => false) =
      (⟨200, Body.message
          "User and associated projects and emails deleted successfully"⟩,
       deleteUserRow (deleteProjectsOfUser (deleteEmailsOfUser fixStore "A")
         "A") "A") :=
  ⟨(C2_delete_user_cascade fixStore "A" (fun _ => true)).1 (Or.inl rfl),
   (C2_delete_user_cascade fixStore "A" (fun _ => false)).2 (fun _ => rfl)⟩

/-- C1 witness: the amended theorem applied to the concrete one-user store
holding token "t". -/
theorem C1_verify_email_consumption_witness :
    (verifyEmail c1Store "t").1 =
      ⟨200, Body.message "Email verified successfully"⟩ :=
  ((C1_verify_email_consumption c1Store "t" (by decide)).2
    { id := "u1", username := "alice", email := "a@x.com",
      password_hash := "h1", is_verified := false, token := some "t" }
    (by decide) (by decide)).1

/-- C3: a delete-project request for a project of user A, authenticated as
a different user B, hits a zero row count on the ownership-guarded delete,
rolls the transaction back — restoring the project emails deleted inside
it — and answers 404 NotFoundOrNotOwned with the store exactly as before
the request. -/
theorem C3_delete_project_not_owner (s : Store) (p : Project)
    (hp : p ∈ s.projects) (B : String) (hB : p.user_id ≠ B)
    (huniq : ∀ q ∈ s.projects, q.id = p.id → q = p)
    (fail : Nat → Bool) (hf0 : fail 0 = false) (hf1 : fail 1 = false) :
    deleteProject s p.id B fail =
      (⟨404, Body.message "Project not found or not owned by the user"⟩,
       s) := by
  have hcnt : s.projects.filter
      (fun q => q.id == p.id && q.user_id == B) = [] := by
    apply List.filter_eq_nil_iff.mpr
    intro q hq hpred
    simp only [Bool.and_eq_true, beq_iff_eq] at hpred
    have hqp : q = p := huniq q hq hpred.1
    exact hB (hqp ▸ hpred.2)
  unfold deleteProject
  simp [hf0, hf1, hcnt]

/-- C3 witness: user "B" tries to delete project 1, which belongs to "A",
with no transient query failures. -/
theorem C3_delete_project_not_owner_witness :
    deleteProject fixStore 1 "B" (fun _ => false) =
      (⟨404, Body.message "Project not found or not owned by the user"⟩,
       fixStore) :=
  C3_delete_project_not_owner fixStore
    { id := 1, user_id := "A", project_name := "p1", description := "d1" }
    (by decide) "B" (by decide) (by decide) (fun _ => false) rfl rfl

/-- C4: a signin whose identifier matches no stored user and a signin that
finds a user but fails the bcrypt comparison produce the very same
response (401 with the one generic InvalidCredentials message), while a
signin that finds the user and passes the comparison on an unverified
account produces the distinct 400 EmailNotVerified response. -/
theorem C4_signin_indistinguishable (s : Store)
    (cmp : String → String → Bool)
    (id1 pw1 : String) (h1a : id1 ≠ "") (h1b : pw1 ≠ "")
    (hno : signinLookup s id1 = [])
    (id2 pw2 : String) (h2a : id2 ≠ "") (h2b : pw2 ≠ "")
    (u : User) (us : List User) (hu : signinLookup s id2 = u :: us)
    (hpw : cmp pw2 u.password_hash = false)
    (id3 pw3 : String) (h3a : id3 ≠ "") (h3b : pw3 ≠ "")
    (v : User) (vs : List User) (hv : signinLookup s id3 = v :: vs)
    (hvpw : cmp pw3 v.password_hash = true)
    (hvver : v.is_verified = false) :
    (signin s id1 pw1 cmp).1 = (signin s id2 pw2 cmp).1 ∧
    (signin s id1 pw1 cmp).1 =
      ⟨401, Body.message "Invalid username/email or password"⟩ ∧
    (signin s id3 pw3 cmp).1 = ⟨400, Body.message "Email not verified"⟩ := by
  unfold signin
  rw [hno, hu, hv]
  simp [h1a, h1b, h2a, h2b, h3a, h3b, hpw, hvpw, hvver]

/-- C4 witness: unknown identifier "nobody" versus wrong password for
"alice": identical 401 payloads; correct password for the unverified
"bob": the distinct EmailNotVerified response. -/
theorem C4_signin_indistinguishable_witness :
    (signin fixStore "nobody" "x" demoCmp).1 =
      (signin fixStore "alice" "wrong" demoCmp).1 ∧
    (signin fixStore "nobody" "x" demoCmp).1 =
      ⟨401, Body.message "Invalid username/email or password"⟩ ∧
    (signin fixStore "bob" "pwB" demoCmp).1 =
      ⟨400, Body.message "Email not verified"⟩ :=
  C4_signin_indistinguishable fixStore demoCmp
    "nobody" "x" (by decide) (by decide) (by decide)
    "alice" "wrong" (by decide) (by decide)
    userA [] (by decide) (by decide)
    "bob" "pwB" (by decide) (by decide)
    userB [] (by decide) (by decide) (by decide)

/-- C5: whenever signin answers with a signed session token, the stored
user the token's userId refers to has is_verified = true — signin is the
only operation that issues session tokens, and it checks the flag before
signing. -/
theorem C5_session_token_requires_verified (s : Store)
    (inputName password : String) (cmp : String → String → Bool)
    (tok : SessionToken) (st : String)
    (h : (signin s inputName password cmp).1.body =
      Body.signinSuccess tok st) :
    ∃ u ∈ s.users, u.id = tok.userId ∧ u.is_verified = true := by
  unfold signin at h
  by_cases hin : inputName = "" ∨ password = ""
  · rw [if_pos hin] at h
    exact absurd h (by simp)
  · rw [if_neg hin] at h
    cases hl : signinLookup s inputName with
    | nil =>
      rw [hl] at h
      exact absurd h (by simp)
    | cons u us =>
      rw [hl] at h
      dsimp only at h
      by_cases hc : cmp password u.password_hash = false
      · rw [if_pos hc] at h
        exact absurd h (by simp)
      · rw [if_neg hc] at h
        by_cases hv : u.is_verified = false
        · rw [if_pos hv] at h
          exact absurd h (by simp)
        · rw [if_neg hv] at h
          simp only [Body.signinSuccess.injEq] at h
          refine ⟨u, ?_, ?_, ?_⟩
          · have hm : u ∈ signinLookup s inputName := by
              rw [hl]
              exact List.mem_cons_self u us
            unfold signinLookup at hm
            split at hm <;> exact List.mem_of_mem_filter hm
          · rw [← h.1]
          · revert hv
            cases u.is_verified <;> simp

/-- C5 witness: the verified user "alice" signs in successfully; the
issued token's userId names her verified record. -/
theorem C5_session_token_requires_verified_witness :
    ∃ u ∈ fixStore.users,
      u.id = (SessionToken.mk "A").userId ∧ u.is_verified = true :=
  C5_session_token_requires_verified fixStore "alice" "pwA" demoCmp
    ⟨"A"⟩ "Success" (by decide)

/-- C6: the leftover `GET /get-users` endpoint answers
`SELECT * FROM users` verbatim, so the response payload carries the
`password_hash` column of every stored user — contradicting the claim
that no endpoint's payload ever includes a password hash. -/
theorem C6_get_users_returns_password_hash :
    (getUsers fixStore).1.status = 200 ∧
    (getUsers fixStore).1.body =
      Body.userRows [userRowJson userA, userRowJson userB] ∧
    ("password_hash", "HpwA") ∈ userRowJson userA ∧
    ("password_hash", "HpwB") ∈ userRowJson userB := by
  decide

/-- C7: a committed delete-user for A keeps every row of any distinct
user B — B's user record, B's projects, and the emails of B's projects
(given project ids are unique) — while removing A's user row, all of A's
projects and every email filed under one of A's projects. -/
theorem C7_delete_user_frame (s : Store) (A B : String) (hAB : A ≠ B)
    (fail : Nat → Bool) (hf : ∀ i, fail i = false) :
    (∀ u ∈ s.users, u.id = B → u ∈ (deleteUser s A fail).2.users) ∧
    (∀ p ∈ s.projects, p.user_id = B →
      p ∈ (deleteUser s A fail).2.projects) ∧
    (∀ p ∈ s.projects, p.user_id = B →
      (∀ q ∈ s.projects, q.id = p.id → q.user_id = B) →
      ∀ e ∈ s.project_emails, e.project_id = p.id →
        e ∈ (deleteUser s A fail).2.project_emails) ∧
    (∀ p ∈ (deleteUser s A fail).2.projects, p.user_id ≠ A) ∧
    (∀ p ∈ s.projects, p.user_id = A →
      ∀ e ∈ (deleteUser s A fail).2.project_emails, e.project_id ≠ p.id) ∧
    (∀ u ∈ (deleteUser s A fail).2.users, u.id ≠ A) := by
  rw [deleteUser_ok s A fail hf]
  simp only [deleteUserRow, deleteProjectsOfUser, deleteEmailsOfUser]
  refine ⟨?_, ?_, ?_, ?_, ?_, ?_⟩
  · intro u hu hid
    refine List.mem_filter.mpr ⟨hu, ?_⟩
    simp [hid]
    intro hBA
    exact hAB hBA.symm
  · intro p hp hpo
    refine List.mem_filter.mpr ⟨hp, ?_⟩
    simp [hpo]
    intro hBA
    exact hAB hBA.symm
  · intro p hp hpo huniq e he hep
    refine List.mem_filter.mpr ⟨he, ?_⟩
    have hnotin : e.project_id ∉
        (s.projects.filter (fun q => q.user_id == A)).map
          (fun q => q.id) := by
      intro hin
      obtain ⟨q, hq, hqe⟩ := List.mem_map.mp hin
      have hqA : q.user_id = A := by
        have := (List.mem_filter.mp hq).2
        simpa using this
      have hqB : q.user_id = B := huniq q (List.mem_of_mem_filter hq)
        (hqe.trans hep)
      exact hAB (hqA.symm.trans hqB)
    simpa using hnotin
  · intro p hp
    have := (List.mem_filter.mp hp).2
    simp at this
    exact fun hA => this hA
  · intro p hp hpo e he hep
    have hmem := (List.mem_filter.mp he).2
    simp only [Bool.not_eq_true'] at hmem
    have hin : e.project_id ∈
        (s.projects.filter (fun q => q.user_id == A)).map
          (fun q => q.id) :=
      List.mem_map.mpr ⟨p, List.mem_filter.mpr ⟨hp, by simp [hpo]⟩, hep.symm⟩
    simp at hmem
    exact hmem p hp hpo hep.symm
  · intro u hu
    have := (List.mem_filter.mp hu).2
    simp at this
    exact fun hA => this hA

/-- C7 witness: after "A" is deleted from the fixture store, "B"'s user
row, project 2 and its collected email are all still present. -/
theorem C7_delete_user_frame_witness :
    userB ∈ (deleteUser fixStore "A" (fun _ => false)).2.users ∧
    ({ id := 2, user_id := "B", project_name := "p2",
       description := "d2" } : Project) ∈
      (deleteUser fixStore "A" (fun _ => false)).2.projects ∧
    ({ id := 20, project_id := 2, email := "e3@z.com" } : ProjectEmail) ∈
      (deleteUser fixStore "A" (fun _ => false)).2.project_emails :=
  have h := C7_delete_user_frame fixStore "A" "B" (by decide)
    (fun _ => false) (fun _ => rfl)
  ⟨h.1 userB (by decide) rfl,
   h.2.1 { id := 2, user_id := "B", project_name := "p2",
           description := "d2" } (by decide) rfl,
   h.2.2.1 { id := 2, user_id := "B", project_name := "p2",
             description := "d2" } (by decide) rfl (by decide)
     { id := 20, project_id := 2, email := "e3@z.com" } (by decide) rfl⟩

/-- C8: with a project `pid` present and no ProjectEmail row yet for the
pair (pid, e), the first add succeeds (201 with the fresh row) and leaves
exactly one row for the pair; the immediately repeated add fails with the
DuplicateEmail response and leaves the store — hence still exactly one
row for the pair — unchanged. -/
theorem C8_duplicate_project_email (s : Store) (pid : Nat) (e : String)
    (he : e ≠ "") (p : Project) (hp : p ∈ s.projects) (hpid : p.id = pid)
    (hnone : countPair s pid e = 0) :
    (collectEmail s pid e).1 =
      ⟨201, Body.emailRecord s.next_email_id pid e⟩ ∧
    countPair (collectEmail s pid e).2 pid e = 1 ∧
    (collectEmail (collectEmail s pid e).2 pid e).1 =
      ⟨400, Body.message "Email already associated with this project"⟩ ∧
    (collectEmail (collectEmail s pid e).2 pid e).2 =
      (collectEmail s pid e).2 := by
  have hproj : ¬ (s.projects.filter (fun q => q.id == pid)).length = 0 := by
    intro h0
    rw [List.length_eq_zero] at h0
    have : p ∈ s.projects.filter (fun q => q.id == pid) :=
      List.mem_filter.mpr ⟨hp, by simp [hpid]⟩
    rw [h0] at this
    exact (List.not_mem_nil p) this
  have hfil0 : s.project_emails.filter
      (fun pe => pe.project_id == pid && pe.email == e) = [] := by
    rw [← List.length_eq_zero]
    exact hnone
  have h1 : collectEmail s pid e =
      (⟨201, Body.emailRecord s.next_email_id pid e⟩,
       { s with
         project_emails := s.project_emails ++
           [{ id := s.next_email_id, project_id := pid, email := e }],
         next_email_id := s.next_email_id + 1 }) := by
    unfold collectEmail
    rw [if_neg he, if_neg hproj]
    rw [if_neg (by unfold countPair; rw [hfil0]; simp)]
  have h2 : countPair (collectEmail s pid e).2 pid e = 1 := by
    rw [h1]
    unfold countPair
    dsimp only
    rw [List.filter_append, hfil0]
    simp
  have hc1 : 0 < countPair (collectEmail s pid e).2 pid e := by
    rw [h2]
    decide
  have h3 : collectEmail (collectEmail s pid e).2 pid e =
      (⟨400, Body.message "Email already associated with this project"⟩,
       (collectEmail s pid e).2) := by
    rw [h1] at hc1 ⊢
    dsimp only at hc1 ⊢
    unfold collectEmail
    dsimp only
    rw [if_neg he, if_neg hproj, if_pos hc1]
  exact ⟨by rw [h1], h2, by rw [h3], by rw [h3]⟩

/-- C8 witness: collecting "new@z.com" into project 1 of the fixture
store succeeds once and is refused with DuplicateEmail on the repeat. -/
theorem C8_duplicate_project_email_witness :
    (collectEmail fixStore 1 "new@z.com").1 =
      ⟨201, Body.emailRecord 21 1 "new@z.com"⟩ ∧
    countPair (collectEmail fixStore 1 "new@z.com").2 1 "new@z.com" = 1 ∧
    (collectEmail (collectEmail fixStore 1 "new@z.com").2 1
        "new@z.com").1 =
      ⟨400, Body.message "Email already associated with this project"⟩ ∧
    (collectEmail (collectEmail fixStore 1 "new@z.com").2 1
        "new@z.com").2 =
      (collectEmail fixStore 1 "new@z.com").2 :=
  C8_duplicate_project_email fixStore 1 "new@z.com" (by decide)
    { id := 1, user_id := "A", project_name := "p1", description := "d1" }
    (by decide) rfl (by decide)

/-- C9: a signup with non-empty fields whose email and username are both
unused answers 201 with the user summary and stores a user row that is
unverified and holds the freshly generated verification token (in
particular a non-null token). -/
theorem C9_signup_unverified_with_token (s : Store)
    (username email password : String) (hU : username ≠ "")
    (hE : email ≠ "") (hP : password ≠ "")
    (hue : ∀ u ∈ s.users, u.email ≠ email)
    (hun : ∀ u ∈ s.users, u.username ≠ username)
    (bcryptHash : String → String) (freshToken freshId : String) :
    (signup s username email password bcryptHash freshToken freshId).1 =
      ⟨201, Body.userSummary freshId username email⟩ ∧
    ∃ u ∈ (signup s username email password bcryptHash freshToken
        freshId).2.users,
      u.id = freshId ∧ u.username = username ∧ u.email = email ∧
      u.password_hash = bcryptHash password ∧ u.is_verified = false ∧
      u.token = some freshToken ∧ u.token ≠ none := by
  have hfe : s.users.filter (fun u => u.email == email) = [] :=
    List.filter_eq_nil_iff.mpr (fun a ha => by simp [hue a ha])
  have hfn : s.users.filter (fun u => u.username == username) = [] :=
    List.filter_eq_nil_iff.mpr (fun a ha => by simp [hun a ha])
  have h1 : signup s username email password bcryptHash freshToken
      freshId =
      (⟨201, Body.userSummary freshId username email⟩,
       { s with users := s.users ++
          [{ id := freshId, username := username, email := email,
             password_hash := bcryptHash password, is_verified := false,
             token := some freshToken }] }) := by
    unfold signup
    rw [if_neg (by simp [hU, hE, hP]), if_neg (by rw [hfe]; simp),
      if_neg (by rw [hfn]; simp)]
  rw [h1]
  refine ⟨rfl, ?_⟩
  refine ⟨{ id := freshId, username := username, email := email,
            password_hash := bcryptHash password, is_verified := false,
            token := some freshToken }, ?_, rfl, rfl, rfl, rfl, rfl, rfl,
          by simp⟩
  simp

/-- C9 witness: "carol" signs up on the fixture store with fresh token
"tC" and fresh id "C". -/
theorem C9_signup_unverified_with_token_witness :
    (signup fixStore "carol" "carol@w.com" "pwC" (fun pw => "H" ++ pw)
        "tC" "C").1 =
      ⟨201, Body.userSummary "C" "carol" "carol@w.com"⟩ ∧
    ∃ u ∈ (signup fixStore "carol" "carol@w.com" "pwC" (fun pw => "H" ++ pw)
        "tC" "C").2.users,
      u.id = "C" ∧ u.username = "carol" ∧ u.email = "carol@w.com" ∧
      u.password_hash = (fun pw => "H" ++ pw) "pwC" ∧
      u.is_verified = false ∧ u.token = some "tC" ∧ u.token ≠ none :=
  C9_signup_unverified_with_token fixStore "carol" "carol@w.com" "pwC"
    (by decide) (by decide) (by decide) (by decide) (by decide)
    (fun pw => "H" ++ pw) "tC" "C"

/-- C10: a committed delete-user whose user id matches no user row and no
project (for example a replayed bearer token of an already-deleted
account) removes nothing, still commits, and answers exactly the same 200
success confirmation as any other committed delete-user — the operation
is idempotent at the interface. -/
theorem C10_delete_user_idempotent (s : Store) (userId : String)
    (fail : Nat → Bool) (hf : ∀ i, fail i = false)
    (hnouser : ∀ u ∈ s.users, u.id ≠ userId)
    (hnoproj : ∀ p ∈ s.projects, p.user_id ≠ userId) :
    deleteUser s userId fail =
      (⟨200, Body.message
          "User and associated projects and emails deleted successfully"⟩,
       s) ∧
    ∀ (s2 : Store) (uid2 : String) (f2 : Nat → Bool),
      (∀ i, f2 i = false) →
      (deleteUser s2 uid2 f2).1 = (deleteUser s userId fail).1 := by
  have hfp : s.projects.filter (fun p => p.user_id == userId) = [] :=
    List.filter_eq_nil_iff.mpr (fun a ha => by simp [hnoproj a ha])
  have hpe : deleteEmailsOfUser s userId = s := by
    unfold deleteEmailsOfUser
    rw [hfp]
    simp
  have hpp : deleteProjectsOfUser s userId = s := by
    unfold deleteProjectsOfUser
    rw [List.filter_eq_self.mpr (fun a ha => by simp [hnoproj a ha])]
  have hpu : deleteUserRow s userId = s := by
    unfold deleteUserRow
    rw [List.filter_eq_self.mpr (fun a ha => by simp [hnouser a ha])]
  constructor
  · rw [deleteUser_ok s userId fail hf, hpe, hpp, hpu]
  · intro s2 uid2 f2 hf2
    rw [deleteUser_ok s userId fail hf, deleteUser_ok s2 uid2 f2 hf2]

/-- C10 witness: deleting the unknown user id "ghost" from the fixture
store commits, changes nothing, and returns the same confirmation as
deleting the existing user "A". -/
theorem C10_delete_user_idempotent_witness :
    deleteUser fixStore "ghost" (fun _ => false) =
      (⟨200, Body.message
          "User and associated projects and emails deleted successfully"⟩,
       fixStore) ∧
    (deleteUser fixStore "A" (fun _ => false)).1 =
      (deleteUser fixStore "ghost" (fun _ => false)).1 :=
  have h := C10_delete_user_idempotent fixStore "ghost" (fun _ => false)
    (fun _ => rfl) (by decide) (by decide)
  ⟨h.1, h.2 fixStore "A" (fun _ => false) (fun _ => rfl)⟩
